import Mathlib

/-!
Verification of the responder web framework's dispatch core
(src/responder/api.py): the route table, the handler-shape cascade of
API._dispatch_request, GraphQL query resolution, the mount table and
the cached requests session.  models.py and status.py are not part of
src/, so the Request/Response data carriers are modelled from the
spec where indicated.
-/

/-- Python exception classes that appear in api.py's control flow. -/
inductive PyError
  | typeError
  | attributeError
  | assertionError
  | keyError
  | indexError
  | valueError
  deriving DecidableEq, Repr

/-- Modelled from the spec: the body of a request as exposed by
`req.data` (models.py is absent from src/): either a plain string or a
structured (form-data) mapping, which is what
`not isinstance(req.data, str)` distinguishes. -/
inductive ReqData
  | str (s : String)
  | dict (entries : List (String × String))
  deriving DecidableEq

/-- Modelled from the spec: models.Request (models.py is absent from
src/) "wraps an inbound HTTP request, exposing method, path, headers,
parsed query params, body (JSON/form/text), and mutable dispatch-state
flag".  `jsonBody` is the parsed JSON object consulted by
`req.json()`, `params` the parsed query-string multi-dict, and
`dispatched` the mutable flag assigned in _dispatch_request. -/
structure Req where
  path : String
  method : String
  mimetype : String
  jsonBody : List (String × String)
  rdata : ReqData
  params : List (String × List String)
  text : String
  dispatched : Bool
  deriving DecidableEq

/-- Modelled from the spec: models.Response (models.py is absent from
src/), a "mutable response builder — status code, headers, body
(text/JSON/media), defaulting to 404".  `media` is the JSON document
assigned by API.graphql_response. -/
structure Resp where
  status_code : Nat
  text : String
  media : Option String
  deriving DecidableEq

/-- The fresh `models.Response(req=req)` built at the top of
API._dispatch_request: default "not found" status with an empty body. -/
def initResp : Resp := { status_code := 404, text := "", media := none }

/-- API.default_response: set status 404 and the fixed body
"Not found.". -/
def default_response (resp : Resp) : Resp :=
  { resp with status_code := 404, text := "Not found." }

/-- Outcome of invoking a Python callable with the two positional
arguments (req, resp): `mismatch` is a TypeError raised at the call
boundary (the callable does not accept two positional arguments);
`runs` means the body executed and either completed, updating the
response, or raised `e`.  The dispatcher in api.py sees only the
exception class, so a TypeError raised inside a correctly-shaped body
is indistinguishable from a boundary mismatch; the embedding keeps the
two apart so that this distinction can be stated. -/
inductive TwoArg
  | mismatch
  | runs (out : Except PyError (Resp → Resp))

/-- A duck-typed attribute fetched with getattr: `absent` makes
getattr raise AttributeError; `runs` is a bound hook method whose call
either updates the response or raises. -/
inductive Hook
  | absent
  | runs (out : Except PyError (Resp → Resp))

/-- The calling convention view(environ=..., start_response=...):
`mismatch` raises TypeError at the call boundary; `runs` executes the
sub-application, returning an opaque WSGI result (numbered) or
raising. -/
inductive WsgiBeh
  | mismatch
  | runs (out : Except PyError Nat)

/-- A view object as probed by _dispatch_request once the plain
two-argument call has raised TypeError: whether hasattr(view,
"execute") holds (GraphQL schema), schema execution as a function from
the query string to the encoded result document (or an exception), the
WSGI calling convention, and the getattr-able hook methods
("on_request", "on_get", ...). -/
structure View where
  hasExecute : Bool
  execute : String → Except PyError String
  wsgi : WsgiBeh
  hooks : List (String × Hook)

/-- Outcome of invoking the registered handler with zero arguments
(`self.routes[route]()`): a boundary TypeError, or a body that runs
and produces a view instance or raises. -/
inductive ZeroArg
  | mismatch
  | runs (out : Except PyError View)

/-- A registered handler: its Python object identity `hid` (what `==`
compares in url_for for ordinary function/class objects), its
behaviour under the two-positional-argument call, its behaviour under
the zero-argument call, and the view it presents when used as an
instance directly. -/
structure Handler where
  hid : Nat
  twoArg : TwoArg
  zeroArg : ZeroArg
  asView : View

/-- Observable dispatch events, in execution order: which pieces of a
handler actually ran during _dispatch_request. -/
inductive Ev
  | callHandler
  | callFactory
  | graphqlExec (query : String)
  | wsgiCall
  | hookCall (name : String)
  | defaultResp
  deriving DecidableEq

/-- How _dispatch_request ends: returning the response object,
returning a raw WSGI result directly, or letting an exception
propagate to the transport boundary. -/
inductive DispatchOut
  | resp (r : Resp)
  | wsgi (w : Nat)
  | raised (e : PyError)
  deriving DecidableEq

/-- Lookup in an insertion-ordered dict (Python dict semantics). -/
def dictLookup {α : Type} : List (String × α) → String → Option α
  | [], _ => none
  | (k, v) :: rest, key => if k = key then some v else dictLookup rest key

/-- Python's `key in dict` membership test. -/
def dictContains {α : Type} (d : List (String × α)) (key : String) : Bool :=
  (dictLookup d key).isSome

/-- Python's `dict[key] = v`: replaces the value in place, preserving
insertion order, when the key exists, else appends a new entry. -/
def dictSet {α : Type} : List (String × α) → String → α → List (String × α)
  | [], key, v => [(key, v)]
  | (k, w) :: rest, key, v =>
    if k = key then (key, v) :: rest else (k, w) :: dictSet rest key v

/-- API.path_matches_route: scan the route table and return the first
route string equal to the url; the Python loop falls off the end and
returns None when nothing matches. -/
def path_matches_route : List (String × Handler) → String → Option String
  | [], _ => none
  | (route, _) :: rest, url =>
    if url = route then some route else path_matches_route rest url

/-- Does the first character list lead the second one (prefix test on
characters)? -/
def listLeads : List Char → List Char → Bool
  | [], _ => true
  | _ :: _, [] => false
  | a :: as, b :: bs => a = b && listLeads as bs

/-- Substring occurrence over character lists. -/
def isSubstr : List Char → List Char → Bool
  | pat, [] => listLeads pat []
  | pat, c :: rest => listLeads pat (c :: rest) || isSubstr pat rest

/-- Python's substring containment test `pat in s`. -/
def strContains (s pat : String) : Bool := isSubstr pat.data s.data

/-- ASCII lower-casing of one character, as str.lower() does for the
ASCII range HTTP method names live in. -/
def lowerChar (c : Char) : Char :=
  if 'A' ≤ c ∧ c ≤ 'Z' then Char.ofNat (c.toNat + 32) else c

/-- Python's str.lower() on an HTTP method name. -/
def pyLower (s : String) : String := String.mk (s.data.map lowerChar)

/-- Python list indexing `[0]`: IndexError on an empty list. -/
def firstParam : List String → Except PyError String
  | [] => Except.error PyError.indexError
  | v :: _ => Except.ok v

/-- The query-string half of API._resolve_graphql_query: first value
of `query` in req.params, else first value of `q`, else the raw
request text. -/
def paramsQuery (req : Req) : Except PyError String :=
  match dictLookup req.params "query" with
  | some vs => firstParam vs
  | none =>
    match dictLookup req.params "q" with
    | some vs => firstParam vs
    | none => Except.ok req.text

/-- API._resolve_graphql_query: if "json" occurs in the mimetype,
return req.json()["query"] (KeyError when absent); else if req.data is
not a plain string, return its "query" value, else its "q" value, when
either is present; else fall through to the query-string parameters
and finally to the raw request text. -/
def resolve_graphql_query (req : Req) : Except PyError String :=
  if strContains req.mimetype "json" then
    match dictLookup req.jsonBody "query" with
    | some v => Except.ok v
    | none => Except.error PyError.keyError
  else
    match req.rdata with
    | ReqData.dict d =>
      match dictLookup d "query" with
      | some v => Except.ok v
      | none =>
        match dictLookup d "q" with
        | some v => Except.ok v
        | none => paramsQuery req
    | ReqData.str _ => paramsQuery req

/-- API.graphql_response: resolve the query, run schema.execute on it
and store the encoded result document as resp.media.  The encoding
step delegates to the external graphql_server library and is modelled
as the document returned by `execute`; the status code the encoder
also returns is discarded by _dispatch_request, so only `media`
changes. -/
def graphql_response (req : Req) (resp : Resp) (view : View) :
    Except PyError (String × Resp) :=
  match resolve_graphql_query req with
  | Except.error e => Except.error e
  | Except.ok q =>
    match view.execute q with
    | Except.error e => Except.error e
    | Except.ok doc => Except.ok (q, { resp with media := some doc })

/-- getattr(view, name) over the view's hook table: an absent
attribute raises AttributeError, which the dispatcher swallows. -/
def getHook (hooks : List (String × Hook)) (name : String) : Hook :=
  match dictLookup hooks name with
  | some k => k
  | none => Hook.absent

/-- The on_{method} half of the hook step (api.py lines 121-127):
getattr(view, "on_" + req.method.lower()), swallowing AttributeError
whether it comes from the missing attribute or from inside the hook
body; any other exception propagates. -/
def runMethodHook (view : View) (req : Req) (resp : Resp) (evs : List Ev)
    (dispatched : Bool) : List Ev × Bool × DispatchOut :=
  match getHook view.hooks ("on_" ++ pyLower req.method) with
  | Hook.absent => (evs, dispatched, DispatchOut.resp resp)
  | Hook.runs (Except.ok f) =>
    (evs ++ [Ev.hookCall ("on_" ++ pyLower req.method)], dispatched,
      DispatchOut.resp (f resp))
  | Hook.runs (Except.error e) =>
    if e = PyError.attributeError then
      (evs ++ [Ev.hookCall ("on_" ++ pyLower req.method)], dispatched,
        DispatchOut.resp resp)
    else
      (evs ++ [Ev.hookCall ("on_" ++ pyLower req.method)], dispatched,
        DispatchOut.raised e)

/-- The hook step (api.py lines 115-127): try on_request first,
swallowing AttributeError, then the method-named hook. -/
def runHooks (view : View) (req : Req) (resp : Resp) (evs : List Ev)
    (dispatched : Bool) : List Ev × Bool × DispatchOut :=
  match getHook view.hooks "on_request" with
  | Hook.absent => runMethodHook view req resp evs dispatched
  | Hook.runs (Except.ok f) =>
    runMethodHook view req (f resp) (evs ++ [Ev.hookCall "on_request"]) dispatched
  | Hook.runs (Except.error e) =>
    if e = PyError.attributeError then
      runMethodHook view req resp (evs ++ [Ev.hookCall "on_request"]) dispatched
    else
      (evs ++ [Ev.hookCall "on_request"], dispatched, DispatchOut.raised e)

/-- The WSGI attempt (api.py lines 106-113) followed by the hook step.
The assignment req.dispatched = True is executed before view(...) is
called, so the flag is set (and stays set) in every branch here, even
when the call raises TypeError and dispatch falls through to the
hooks.  A successful call returns the raw result directly; a
non-TypeError exception propagates. -/
def wsgiStep (h : Handler) (req : Req) (resp : Resp) (evs : List Ev) :
    List Ev × Bool × DispatchOut :=
  match h.asView.wsgi with
  | WsgiBeh.runs (Except.ok w) => (evs ++ [Ev.wsgiCall], true, DispatchOut.wsgi w)
  | WsgiBeh.runs (Except.error e) =>
    if e = PyError.typeError then
      runHooks h.asView req resp (evs ++ [Ev.wsgiCall]) true
    else (evs ++ [Ev.wsgiCall], true, DispatchOut.raised e)
  | WsgiBeh.mismatch => runHooks h.asView req resp evs true

/-- The double-TypeError branch (api.py lines 100-127): treat the
handler itself as the view; if it has an execute attribute run the
GraphQL path — and then, because lines 115-127 sit outside the inner
try, still fall into the hook step — otherwise the assertion fails and
the WSGI shape is attempted.  An AssertionError coming out of the
GraphQL path is caught by the same except and also selects the WSGI
shape; any other exception from it propagates. -/
def viewBranch (h : Handler) (req : Req) (resp : Resp) (evs : List Ev) :
    List Ev × Bool × DispatchOut :=
  if h.asView.hasExecute then
    match graphql_response req resp h.asView with
    | Except.ok (q, resp2) =>
      runHooks h.asView req resp2 (evs ++ [Ev.graphqlExec q]) req.dispatched
    | Except.error e =>
      if e = PyError.assertionError then wsgiStep h req resp evs
      else (evs, req.dispatched, DispatchOut.raised e)
  else wsgiStep h req resp evs

/-- The outer except TypeError branch (api.py lines 96-127): try the
handler as a zero-argument factory; a second TypeError selects the
view branch (GraphQL / WSGI / hooks on the handler itself), a
successful factory call goes straight to the hook step on its product,
and a non-TypeError exception from the factory propagates. -/
def classBasedBranch (h : Handler) (req : Req) (resp : Resp) (evs : List Ev) :
    List Ev × Bool × DispatchOut :=
  match h.zeroArg with
  | ZeroArg.runs (Except.ok v) =>
    runHooks v req resp (evs ++ [Ev.callFactory]) req.dispatched
  | ZeroArg.runs (Except.error e) =>
    if e = PyError.typeError then viewBranch h req resp (evs ++ [Ev.callFactory])
    else (evs ++ [Ev.callFactory], req.dispatched, DispatchOut.raised e)
  | ZeroArg.mismatch => viewBranch h req resp evs

/-- The matched-route body of API._dispatch_request: call the handler
with (req, resp); any TypeError — whether a calling-convention
mismatch at the boundary or raised from inside a correctly-shaped body
— is caught and selects the class-based branch, while every other
exception propagates. -/
def dispatchHandler (h : Handler) (req : Req) (resp : Resp) :
    List Ev × Bool × DispatchOut :=
  match h.twoArg with
  | TwoArg.runs (Except.ok f) =>
    ([Ev.callHandler], req.dispatched, DispatchOut.resp (f resp))
  | TwoArg.runs (Except.error e) =>
    if e = PyError.typeError then classBasedBranch h req resp [Ev.callHandler]
    else ([Ev.callHandler], req.dispatched, DispatchOut.raised e)
  | TwoArg.mismatch => classBasedBranch h req resp []

/-- API._dispatch_request: match the path against the route table and
either run the handler cascade or produce the default 404.  Python's
`if route:` is False both when path_matches_route returned None and
when it returned the empty string, so a route registered at "" falls
into the default_response branch.  `self.routes[route]` raises
KeyError when the key is missing; that branch is unreachable when
path_matches_route just found the route in the same table. -/
def dispatch_request (routes : List (String × Handler)) (req : Req) :
    List Ev × Bool × DispatchOut :=
  match path_matches_route routes req.path with
  | some route =>
    if route = "" then
      ([Ev.defaultResp], req.dispatched,
        DispatchOut.resp (default_response initResp))
    else
      match dictLookup routes route with
      | some h => dispatchHandler h req initResp
      | none => ([], req.dispatched, DispatchOut.raised PyError.keyError)
  | none =>
    ([Ev.defaultResp], req.dispatched,
      DispatchOut.resp (default_response initResp))

/-- API.add_route: `assert route not in self.routes` when
check_existing is set (AssertionError on a duplicate), then
`self.routes[route] = view`.  The graphiql parameter of the source is
unused there and omitted. -/
def add_route (routes : List (String × Handler)) (route : String)
    (view : Handler) (check_existing : Bool) :
    Except PyError (List (String × Handler)) :=
  if check_existing && dictContains routes route then
    Except.error PyError.assertionError
  else Except.ok (dictSet routes route view)

/-- API.url_for: scan the routes in insertion order for the first
whose stored view compares equal to the argument (object identity
`hid` for ordinary handler objects) and return its route; raise
ValueError when none matches. -/
def url_for : List (String × Handler) → Handler → Except PyError String
  | [], _ => Except.error PyError.valueError
  | (route, v) :: rest, view =>
    if v.hid = view.hid then Except.ok route else url_for rest view

/-- Does some registered route store this view (by identity)? -/
def registersView (routes : List (String × Handler)) (view : Handler) : Bool :=
  routes.any (fun rv => rv.2.hid == view.hid)

/-- A mounted sub-application: the gateway installed by API.__init__
at "/" (self._wsgi_app, fronting whitenoise and the dispatcher) or an
externally supplied WSGI application. -/
inductive AppRef
  | gateway
  | ext (n : Nat)
  deriving DecidableEq

/-- API.__init__: `self.apps = {"/": self._wsgi_app}`. -/
def initApps : List (String × AppRef) := [("/", AppRef.gateway)]

/-- API.mount: `self.apps.update({route: wsgi_app})`. -/
def mount (apps : List (String × AppRef)) (route : String) (app : AppRef) :
    List (String × AppRef) :=
  dictSet apps route app

/-- The cached requests session object, remembered by the base_url at
which its WSGI adapter was mounted when it was built. -/
structure SessionObj where
  baseUrl : String
  deriving DecidableEq

/-- API.session: when self._session is None, build a session, mount
the adapter at the base_url argument and cache it; otherwise return
the cached session unconditionally.  Takes and returns the
self._session cell. -/
def session (cached : Option SessionObj) (base_url : String) :
    SessionObj × Option SessionObj :=
  match cached with
  | none => ({ baseUrl := base_url }, some { baseUrl := base_url })
  | some s => (s, some s)

/-- Modelled from the spec: the claim's four-step precedence for
GraphQL query resolution, stated in the claim's own order — (1) JSON
content type takes the parsed JSON body's "query" field, KeyError when
absent; (2) else a structured body's "query" value, else its "q"
value, if present; (3) else the first value of the URL parameters'
"query", else of "q"; (4) else the raw request body text verbatim. -/
def structuredLookup : ReqData → Option String
  | ReqData.str _ => none
  | ReqData.dict d =>
    match dictLookup d "query" with
    | some v => some v
    | none => dictLookup d "q"

/-- Step composition of the spec's precedence (see structuredLookup). -/
def resolveQuerySpec (req : Req) : Except PyError String :=
  if strContains req.mimetype "json" then
    match dictLookup req.jsonBody "query" with
    | some v => Except.ok v
    | none => Except.error PyError.keyError
  else
    match structuredLookup req.rdata with
    | some v => Except.ok v
    | none =>
      match dictLookup req.params "query" with
      | some vs => firstParam vs
      | none =>
        match dictLookup req.params "q" with
        | some vs => firstParam vs
        | none => Except.ok req.text

/-! Helper lemmas about the dict embedding and the event traces. -/

theorem dictLookup_dictSet_self {α : Type} (d : List (String × α)) (key : String)
    (v : α) : dictLookup (dictSet d key v) key = some v := by
  induction d with
  | nil => simp [dictSet, dictLookup]
  | cons kw rest ih =>
    obtain ⟨k, w⟩ := kw
    by_cases hk : k = key
    · simp [dictSet, hk, dictLookup]
    · simp [dictSet, hk, dictLookup, ih]

theorem dictLookup_dictSet_ne {α : Type} (d : List (String × α)) (key key' : String)
    (v : α) (hne : key' ≠ key) :
    dictLookup (dictSet d key v) key' = dictLookup d key' := by
  have hne2 : key ≠ key' := fun hh => hne hh.symm
  induction d with
  | nil => simp [dictSet, dictLookup, hne2]
  | cons kw rest ih =>
    obtain ⟨k, w⟩ := kw
    by_cases hk : k = key
    · subst hk
      simp [dictSet, dictLookup, hne2]
    · by_cases hk' : k = key'
      · simp [dictSet, hk, dictLookup, hk', hne]
      · simp [dictSet, hk, dictLookup, hk', ih]

theorem path_matches_of_dictLookup (routes : List (String × Handler)) (url : String)
    (h : Handler) (hl : dictLookup routes url = some h) :
    path_matches_route routes url = some url := by
  induction routes with
  | nil => simp [dictLookup] at hl
  | cons rv rest ih =>
    obtain ⟨k, v⟩ := rv
    by_cases hk : k = url
    · subst hk
      simp [path_matches_route]
    · have hk2 : url ≠ k := fun hh => hk hh.symm
      simp [dictLookup, hk] at hl
      simpa [path_matches_route, hk2] using ih hl

theorem dispatch_request_matched (routes : List (String × Handler)) (req : Req)
    (h : Handler) (hl : dictLookup routes req.path = some h) (hp : req.path ≠ "") :
    dispatch_request routes req = dispatchHandler h req initResp := by
  unfold dispatch_request
  rw [path_matches_of_dictLookup routes req.path h hl]
  simp [hp, hl]

theorem runMethodHook_events (x : Ev) (hx : ∀ s, x ≠ Ev.hookCall s)
    (view : View) (req : Req) (resp : Resp) (evs : List Ev) (d : Bool)
    (hin : x ∉ evs) : x ∉ (runMethodHook view req resp evs d).1 := by
  unfold runMethodHook
  cases hG : getHook view.hooks ("on_" ++ pyLower req.method) with
  | absent => exact hin
  | runs out =>
    cases out with
    | ok f => simp [List.mem_append, hin, hx]
    | error e =>
      by_cases he : e = PyError.attributeError <;>
        simp [he, List.mem_append, hin, hx]

theorem runHooks_events (x : Ev) (hx : ∀ s, x ≠ Ev.hookCall s)
    (view : View) (req : Req) (resp : Resp) (evs : List Ev) (d : Bool)
    (hin : x ∉ evs) : x ∉ (runHooks view req resp evs d).1 := by
  unfold runHooks
  cases hG : getHook view.hooks "on_request" with
  | absent => exact runMethodHook_events x hx view req resp evs d hin
  | runs out =>
    cases out with
    | ok f =>
      refine runMethodHook_events x hx view req (f resp) _ d ?_
      simp [List.mem_append, hin, hx]
    | error e =>
      by_cases he : e = PyError.attributeError
      · have := runMethodHook_events x hx view req resp
          (evs ++ [Ev.hookCall "on_request"]) d (by simp [List.mem_append, hin, hx])
        simpa [he] using this
      · simp [he, List.mem_append, hin, hx]

theorem wsgiStep_events (x : Ev) (hx : ∀ s, x ≠ Ev.hookCall s)
    (hw : x ≠ Ev.wsgiCall) (h : Handler) (req : Req) (resp : Resp) (evs : List Ev)
    (hin : x ∉ evs) : x ∉ (wsgiStep h req resp evs).1 := by
  unfold wsgiStep
  cases h.asView.wsgi with
  | mismatch => exact runHooks_events x hx _ req resp evs true hin
  | runs out =>
    cases out with
    | ok w => simp [List.mem_append, hin, hw]
    | error e =>
      by_cases he : e = PyError.typeError
      · have := runHooks_events x hx h.asView req resp
          (evs ++ [Ev.wsgiCall]) true (by simp [List.mem_append, hin, hw])
        simpa [he] using this
      · simp [he, List.mem_append, hin, hw]

theorem viewBranch_events (x : Ev) (hx : ∀ s, x ≠ Ev.hookCall s)
    (hw : x ≠ Ev.wsgiCall) (hg : ∀ q, x ≠ Ev.graphqlExec q)
    (h : Handler) (req : Req) (resp : Resp) (evs : List Ev)
    (hin : x ∉ evs) : x ∉ (viewBranch h req resp evs).1 := by
  unfold viewBranch
  by_cases hE : h.asView.hasExecute = true
  · rw [if_pos hE]
    cases hR : graphql_response req resp h.asView with
    | ok p =>
      obtain ⟨q, r2⟩ := p
      refine runHooks_events x hx _ req r2 _ req.dispatched ?_
      simp [List.mem_append, hin, hg]
    | error e =>
      by_cases he : e = PyError.assertionError
      · have := wsgiStep_events x hx hw h req resp evs hin
        simpa [he] using this
      · simpa [he] using hin
  · rw [if_neg hE]
    exact wsgiStep_events x hx hw h req resp evs hin

theorem classBasedBranch_events (x : Ev) (hx : ∀ s, x ≠ Ev.hookCall s)
    (hw : x ≠ Ev.wsgiCall) (hg : ∀ q, x ≠ Ev.graphqlExec q)
    (hc : x ≠ Ev.callFactory) (h : Handler) (req : Req) (resp : Resp) (evs : List Ev)
    (hin : x ∉ evs) : x ∉ (classBasedBranch h req resp evs).1 := by
  unfold classBasedBranch
  cases h.zeroArg with
  | mismatch => exact viewBranch_events x hx hw hg h req resp evs hin
  | runs out =>
    cases out with
    | ok v =>
      refine runHooks_events x hx v req resp _ req.dispatched ?_
      simp [List.mem_append, hin, hc]
    | error e =>
      by_cases he : e = PyError.typeError
      · have := viewBranch_events x hx hw hg h req resp
          (evs ++ [Ev.callFactory]) (by simp [List.mem_append, hin, hc])
        simpa [he] using this
      · simp [he, List.mem_append, hin, hc]

theorem dispatchHandler_events (x : Ev) (hx : ∀ s, x ≠ Ev.hookCall s)
    (hw : x ≠ Ev.wsgiCall) (hg : ∀ q, x ≠ Ev.graphqlExec q)
    (hc : x ≠ Ev.callFactory) (hch : x ≠ Ev.callHandler)
    (h : Handler) (req : Req) (resp : Resp) :
    x ∉ (dispatchHandler h req resp).1 := by
  unfold dispatchHandler
  cases h.twoArg with
  | mismatch => exact classBasedBranch_events x hx hw hg hc h req resp [] (by simp)
  | runs out =>
    cases out with
    | ok f => simp [hch]
    | error e =>
      by_cases he : e = PyError.typeError
      · have := classBasedBranch_events x hx hw hg hc h req resp [Ev.callHandler]
          (by simp [hch])
        simpa [he] using this
      · simp [he, hch]

/-! Concrete fixtures used by witnesses and counterexamples. -/

/-- A view with no capabilities: no execute attribute, not callable as
a WSGI application, no hook methods. -/
def okView : View :=
  { hasExecute := false
    execute := fun _ => Except.error PyError.typeError
    wsgi := WsgiBeh.mismatch
    hooks := [] }

/-- A plain function handler that accepts (req, resp) and fills in a
200 response. -/
def hOk : Handler :=
  { hid := 1
    twoArg := TwoArg.runs (Except.ok (fun r => { r with status_code := 200, text := "hello" }))
    zeroArg := ZeroArg.mismatch
    asView := okView }

/-- A correctly-shaped handler whose body raises ValueError. -/
def hRaise : Handler :=
  { hid := 2
    twoArg := TwoArg.runs (Except.error PyError.valueError)
    zeroArg := ZeroArg.mismatch
    asView := okView }

/-- A correctly-shaped handler whose body raises TypeError. -/
def hRaiseTE : Handler :=
  { hid := 3
    twoArg := TwoArg.runs (Except.error PyError.typeError)
    zeroArg := ZeroArg.mismatch
    asView := okView }

/-- A handler whose only working shape is the raw WSGI convention. -/
def hWsgi : Handler :=
  { hid := 4
    twoArg := TwoArg.mismatch
    zeroArg := ZeroArg.mismatch
    asView :=
      { hasExecute := false
        execute := fun _ => Except.error PyError.typeError
        wsgi := WsgiBeh.runs (Except.ok 7)
        hooks := [] } }

/-- A handler with no working shape at all (every convention
mismatches and there are no hooks). -/
def hPlainView : Handler :=
  { hid := 5
    twoArg := TwoArg.mismatch
    zeroArg := ZeroArg.mismatch
    asView := okView }

/-- A GET request at the given path with an empty body and no
parameters. -/
def mkReq (p : String) : Req :=
  { path := p
    method := "GET"
    mimetype := ""
    jsonBody := []
    rdata := ReqData.str ""
    params := []
    text := ""
    dispatched := false }

/-! Claim theorems. -/

/-- C2 (amended): for every route registered at a NON-empty path,
dispatching a request with exactly that path runs the handler cascade
on the registered handler and never takes the default-404 branch (no
defaultResp event occurs).  The original claim also quantified over
the empty path string, where Python's `if route:` is falsy even
though the route matched, so the default 404 is produced instead —
see the counterexample. -/
theorem registered_path_dispatches_handler (routes : List (String × Handler))
    (req : Req) (h : Handler) (hl : dictLookup routes req.path = some h)
    (hp : req.path ≠ "") :
    dispatch_request routes req = dispatchHandler h req initResp ∧
    Ev.defaultResp ∉ (dispatch_request routes req).1 := by
  have hd := dispatch_request_matched routes req h hl hp
  refine ⟨hd, ?_⟩
  rw [hd]
  exact dispatchHandler_events Ev.defaultResp (fun s hh => Ev.noConfusion hh)
    (fun hh => Ev.noConfusion hh) (fun q hh => Ev.noConfusion hh)
    (fun hh => Ev.noConfusion hh) (fun hh => Ev.noConfusion hh) h req initResp

/-- Witness for registered_path_dispatches_handler: one function
handler registered at "/". -/
theorem registered_path_dispatches_handler_witness :
    dispatch_request [("/", hOk)] (mkReq "/") = dispatchHandler hOk (mkReq "/") initResp ∧
    Ev.defaultResp ∉ (dispatch_request [("/", hOk)] (mkReq "/")).1 :=
  registered_path_dispatches_handler [("/", hOk)] (mkReq "/") hOk rfl (by decide)

/-- C2 counterexample: a working handler registered at the empty path
string is never reached — Python's `if route:` treats the matched
empty-string route as falsy, so dispatch takes the default-404 branch
(body "Not found.") and the handler is not invoked. -/
theorem empty_path_route_gets_404 :
    dictLookup [("", hOk)] "" = some hOk ∧
    dispatch_request [("", hOk)] (mkReq "") =
      ([Ev.defaultResp], false,
        DispatchOut.resp { status_code := 404, text := "Not found.", media := none }) :=
  ⟨rfl, rfl⟩

/-- C1 (amended): a handler that correctly accepts (request, response)
and raises an error other than TypeError while executing has that
error propagate uncaught out of dispatch; a TypeError raised during
correct-shape execution, however, is indistinguishable from a
calling-convention mismatch, so the dispatcher falls through to the
class-based branch instead of propagating it. -/
theorem handler_error_propagation (routes : List (String × Handler)) (req : Req)
    (h : Handler) (e : PyError) (hl : dictLookup routes req.path = some h)
    (hp : req.path ≠ "") (hr : h.twoArg = TwoArg.runs (Except.error e)) :
    (e ≠ PyError.typeError →
      dispatch_request routes req =
        ([Ev.callHandler], req.dispatched, DispatchOut.raised e)) ∧
    (e = PyError.typeError →
      dispatch_request routes req = classBasedBranch h req initResp [Ev.callHandler]) := by
  have hd := dispatch_request_matched routes req h hl hp
  constructor
  · intro hne
    rw [hd]
    unfold dispatchHandler
    rw [hr]
    simp [hne]
  · intro heq
    rw [hd]
    unfold dispatchHandler
    rw [hr]
    simp [heq]

/-- Witness for handler_error_propagation: a handler raising
ValueError has it propagate. -/
theorem handler_error_propagation_witness :
    dispatch_request [("/err", hRaise)] (mkReq "/err") =
      ([Ev.callHandler], false, DispatchOut.raised PyError.valueError) :=
  (handler_error_propagation [("/err", hRaise)] (mkReq "/err") hRaise PyError.valueError
    rfl (by decide) rfl).1 (by decide)

/-- C1 counterexample: a handler that correctly accepts the two
positional arguments and raises a genuine TypeError while executing
does NOT have the error propagate — dispatch swallows it as a shape
mismatch, falls through the rest of the cascade (here every other
shape mismatches too) and returns the untouched response, with the
dispatched flag set by the attempted WSGI step. -/
theorem typeError_inside_handler_swallowed :
    dispatch_request [("/te", hRaiseTE)] (mkReq "/te") =
      ([Ev.callHandler], true, DispatchOut.resp initResp) ∧
    (dispatch_request [("/te", hRaiseTE)] (mkReq "/te")).2.2 ≠
      DispatchOut.raised PyError.typeError := by
  constructor
  · rfl
  · decide

/-- C4 (amended): at the raw-WSGI step of the cascade, a successful
invocation returns the raw result unmodified with the dispatched flag
set; but the flag is assigned before the invocation is attempted, so
a calling-convention mismatch at this step also leaves the request
marked as dispatched while dispatch falls through to the hook step. -/
theorem wsgi_step_flag (routes : List (String × Handler)) (req : Req) (h : Handler)
    (hl : dictLookup routes req.path = some h) (hp : req.path ≠ "")
    (h2 : h.twoArg = TwoArg.mismatch) (h0 : h.zeroArg = ZeroArg.mismatch)
    (hE : h.asView.hasExecute = false) :
    (∀ w, h.asView.wsgi = WsgiBeh.runs (Except.ok w) →
      dispatch_request routes req = ([Ev.wsgiCall], true, DispatchOut.wsgi w)) ∧
    (h.asView.wsgi = WsgiBeh.mismatch →
      dispatch_request routes req = runHooks h.asView req initResp [] true) := by
  have hd := dispatch_request_matched routes req h hl hp
  constructor
  · intro w hw
    rw [hd]
    unfold dispatchHandler classBasedBranch viewBranch wsgiStep
    rw [h2, h0, hE, hw]
    simp
  · intro hw
    rw [hd]
    unfold dispatchHandler classBasedBranch viewBranch wsgiStep
    rw [h2, h0, hE, hw]
    simp

/-- Witness for wsgi_step_flag: a WSGI-only handler returns its raw
result with the flag set. -/
theorem wsgi_step_flag_witness :
    dispatch_request [("/sub", hWsgi)] (mkReq "/sub") =
      ([Ev.wsgiCall], true, DispatchOut.wsgi 7) :=
  (wsgi_step_flag [("/sub", hWsgi)] (mkReq "/sub") hWsgi rfl (by decide) rfl rfl rfl).1 7 rfl

/-- C4 counterexample: a view that is not a WSGI application (the raw
invocation is a calling-convention mismatch) still ends dispatch with
the request marked as dispatched, because req.dispatched = True is
executed before the attempted call; the claim predicted the request
stays unmarked in that case. -/
theorem dispatched_flag_set_on_wsgi_mismatch :
    (mkReq "/v").dispatched = false ∧
    dispatch_request [("/v", hPlainView)] (mkReq "/v") =
      ([], true, DispatchOut.resp initResp) :=
  ⟨rfl, rfl⟩

/-- Reduction of the hook step when both hooks are exposed and run
normally: on_request fires first, then the method hook, once each. -/
theorem runHooks_both (v : View) (req : Req) (resp : Resp) (evs : List Ev) (d : Bool)
    (f g : Resp → Resp) (hname : "on_" ++ pyLower req.method = "on_get")
    (hr : getHook v.hooks "on_request" = Hook.runs (Except.ok f))
    (hg : getHook v.hooks "on_get" = Hook.runs (Except.ok g)) :
    runHooks v req resp evs d =
      (evs ++ [Ev.hookCall "on_request", Ev.hookCall "on_get"], d,
        DispatchOut.resp (g (f resp))) := by
  unfold runHooks runMethodHook
  rw [hname, hr, hg]
  simp

/-- Reduction of the hook step when neither hook is exposed: both
getattr calls raise AttributeError, which is swallowed, and the
response is returned untouched. -/
theorem runHooks_none (v : View) (req : Req) (resp : Resp) (evs : List Ev) (d : Bool)
    (hname : "on_" ++ pyLower req.method = "on_get")
    (hr : getHook v.hooks "on_request" = Hook.absent)
    (hg : getHook v.hooks "on_get" = Hook.absent) :
    runHooks v req resp evs d = (evs, d, DispatchOut.resp resp) := by
  unfold runHooks runMethodHook
  rw [hname, hr, hg]

/-- C3 (amended): when the cascade reaches a view exposing an execute
capability (after both call shapes mismatched) and schema execution
succeeds, the response is built from the execution result and the raw
sub-application step is skipped (no wsgiCall event occurs and the
dispatched flag is untouched at this point) — but, contrary to the
original claim, dispatch then still falls into the hook step on that
view, invoking on_request / on_<method> when the schema object
exposes them and skipping them silently when absent. -/
theorem graphql_branch (routes : List (String × Handler)) (req : Req) (h : Handler)
    (q : String) (r2 : Resp)
    (hl : dictLookup routes req.path = some h) (hp : req.path ≠ "")
    (h2 : h.twoArg = TwoArg.mismatch) (h0 : h.zeroArg = ZeroArg.mismatch)
    (hE : h.asView.hasExecute = true)
    (hG : graphql_response req initResp h.asView = Except.ok (q, r2)) :
    dispatch_request routes req =
      runHooks h.asView req r2 [Ev.graphqlExec q] req.dispatched ∧
    Ev.wsgiCall ∉ (dispatch_request routes req).1 := by
  have hd := dispatch_request_matched routes req h hl hp
  have hred : dispatch_request routes req =
      runHooks h.asView req r2 [Ev.graphqlExec q] req.dispatched := by
    rw [hd]
    unfold dispatchHandler classBasedBranch viewBranch
    rw [h2, h0, hE, hG]
    simp
  refine ⟨hred, ?_⟩
  rw [hred]
  exact runHooks_events Ev.wsgiCall (fun s hh => Ev.noConfusion hh) h.asView req r2
    [Ev.graphqlExec q] req.dispatched (by simp)

/-- A GraphQL schema view with no hooks. -/
def schemaView : View :=
  { hasExecute := true
    execute := fun q => Except.ok ("data:" ++ q)
    wsgi := WsgiBeh.mismatch
    hooks := [] }

/-- A handler that is only usable as a GraphQL schema. -/
def hSchema : Handler :=
  { hid := 6
    twoArg := TwoArg.mismatch
    zeroArg := ZeroArg.mismatch
    asView := schemaView }

/-- A GET request carrying the query only as raw body text. -/
def gqlReq : Req :=
  { path := "/graph"
    method := "GET"
    mimetype := ""
    jsonBody := []
    rdata := ReqData.str ""
    params := []
    text := "{ping}"
    dispatched := false }

/-- Witness for graphql_branch at a concrete schema registered at
"/graph". -/
theorem graphql_branch_witness :
    dispatch_request [("/graph", hSchema)] gqlReq =
      runHooks schemaView gqlReq { initResp with media := some "data:{ping}" }
        [Ev.graphqlExec "{ping}"] false ∧
    Ev.wsgiCall ∉ (dispatch_request [("/graph", hSchema)] gqlReq).1 :=
  graphql_branch [("/graph", hSchema)] gqlReq hSchema "{ping}"
    { initResp with media := some "data:{ping}" } rfl (by decide) rfl rfl rfl rfl

/-- A GraphQL schema view that also exposes an on_request hook. -/
def schemaHookView : View :=
  { hasExecute := true
    execute := fun q => Except.ok ("data:" ++ q)
    wsgi := WsgiBeh.mismatch
    hooks := [("on_request", Hook.runs (Except.ok (fun r => { r with text := "hooked" })))] }

/-- A handler usable as a GraphQL schema that carries hook methods. -/
def hSchemaHook : Handler :=
  { hid := 7
    twoArg := TwoArg.mismatch
    zeroArg := ZeroArg.mismatch
    asView := schemaHookView }

/-- C3 counterexample: for a schema view that also exposes on_request,
the dispatcher does NOT stop after building the GraphQL response — the
hookCall event follows the graphqlExec event and the hook's effect
lands in the returned response, contrary to the claim that no hook
invocation occurs on such a view afterwards. -/
theorem graphql_then_hook_still_runs :
    dispatch_request [("/graph", hSchemaHook)] gqlReq =
      ([Ev.graphqlExec "{ping}", Ev.hookCall "on_request"], false,
        DispatchOut.resp { status_code := 404, text := "hooked", media := some "data:{ping}" }) :=
  rfl

/-- C5: the source's GraphQL query resolution agrees everywhere with
the claim's four-step precedence (JSON body field with KeyError when
absent; structured body "query" then "q" when present; first URL
parameter value of "query" then of "q"; raw body text). -/
theorem resolve_query_matches_spec (req : Req) :
    resolve_graphql_query req = resolveQuerySpec req := by
  unfold resolve_graphql_query resolveQuerySpec structuredLookup
  by_cases hj : strContains req.mimetype "json" = true
  · rw [if_pos hj, if_pos hj]
  · rw [if_neg hj, if_neg hj]
    cases req.rdata with
    | str s => simp [paramsQuery]
    | dict d =>
      dsimp only
      cases dictLookup d "query" with
      | some v => rfl
      | none =>
        dsimp only
        cases dictLookup d "q" with
        | some v => rfl
        | none => simp [paramsQuery]

/-- C6: for a class-based view reached by the hook step (here produced
by the zero-argument factory), a GET dispatch of a view exposing both
on_request and on_get invokes on_request first and on_get second,
exactly once each — the trace lists each hook event once, in that
order — and hooks the view does not expose are silently skipped
without error. -/
theorem hook_order_get_dispatch (routes : List (String × Handler)) (req : Req)
    (h : Handler) (v : View) (f g : Resp → Resp)
    (hl : dictLookup routes req.path = some h) (hp : req.path ≠ "")
    (hm : req.method = "GET")
    (h2 : h.twoArg = TwoArg.mismatch) (h0 : h.zeroArg = ZeroArg.runs (Except.ok v)) :
    (getHook v.hooks "on_request" = Hook.runs (Except.ok f) →
      getHook v.hooks "on_get" = Hook.runs (Except.ok g) →
      dispatch_request routes req =
        ([Ev.callFactory, Ev.hookCall "on_request", Ev.hookCall "on_get"],
          req.dispatched, DispatchOut.resp (g (f initResp)))) ∧
    (getHook v.hooks "on_request" = Hook.absent →
      getHook v.hooks "on_get" = Hook.absent →
      dispatch_request routes req =
        ([Ev.callFactory], req.dispatched, DispatchOut.resp initResp)) := by
  have hd := dispatch_request_matched routes req h hl hp
  have hlow : "on_" ++ pyLower req.method = "on_get" := by
    rw [hm]; decide
  constructor
  · intro hr hg
    rw [hd]
    unfold dispatchHandler classBasedBranch
    simp only [h2, h0, List.nil_append]
    rw [runHooks_both v req initResp [Ev.callFactory] req.dispatched f g hlow hr hg]
    rfl
  · intro hr hg
    rw [hd]
    unfold dispatchHandler classBasedBranch
    simp only [h2, h0, List.nil_append]
    rw [runHooks_none v req initResp [Ev.callFactory] req.dispatched hlow hr hg]

/-- A view exposing both on_request and on_get hooks. -/
def hookView : View :=
  { hasExecute := false
    execute := fun _ => Except.error PyError.typeError
    wsgi := WsgiBeh.mismatch
    hooks := [("on_request", Hook.runs (Except.ok (fun r => { r with status_code := 200 }))),
      ("on_get", Hook.runs (Except.ok (fun r => { r with text := "got" })))] }

/-- A class-based handler: the zero-argument factory yields hookView. -/
def hFactory : Handler :=
  { hid := 8
    twoArg := TwoArg.mismatch
    zeroArg := ZeroArg.runs (Except.ok hookView)
    asView := okView }

/-- Witness for hook_order_get_dispatch: a GET dispatch on a factory
view with both hooks fires them in order, once each. -/
theorem hook_order_get_dispatch_witness :
    dispatch_request [("/cls", hFactory)] (mkReq "/cls") =
      ([Ev.callFactory, Ev.hookCall "on_request", Ev.hookCall "on_get"], false,
        DispatchOut.resp { status_code := 200, text := "got", media := none }) :=
  (hook_order_get_dispatch [("/cls", hFactory)] (mkReq "/cls") hFactory hookView
    (fun r => { r with status_code := 200 }) (fun r => { r with text := "got" })
    rfl (by decide) rfl rfl rfl).1 rfl rfl

/-- C7 (amended): registering at an already-registered path without
the overwrite flag fails with the AssertionError raised by
`assert route not in self.routes` (the spec's DuplicateRouteError);
with the check bypassed the new handler replaces the old one in
place, and for every NON-empty registered path a subsequent dispatch
runs the cascade on the new handler only.  The original claim also
covered the empty path, where the replacement happens in the table
but dispatch takes the default-404 branch and invokes no handler at
all — see the counterexample. -/
theorem add_route_duplicate_and_overwrite (routes : List (String × Handler))
    (route : String) (v1 v2 : Handler) (req : Req)
    (hv : dictLookup routes route = some v1) :
    add_route routes route v2 true = Except.error PyError.assertionError ∧
    add_route routes route v2 false = Except.ok (dictSet routes route v2) ∧
    dictLookup (dictSet routes route v2) route = some v2 ∧
    (req.path = route → route ≠ "" →
      dispatch_request (dictSet routes route v2) req = dispatchHandler v2 req initResp) := by
  refine ⟨?_, rfl, dictLookup_dictSet_self routes route v2, ?_⟩
  · unfold add_route dictContains
    rw [hv]
    rfl
  · intro hpq hne
    apply dispatch_request_matched
    · rw [hpq]
      exact dictLookup_dictSet_self routes route v2
    · rw [hpq]
      exact hne

/-- Witness for add_route_duplicate_and_overwrite: re-registering "/w"
fails with the flag checked, and after the overwriting registration a
dispatch of "/w" runs the new handler's cascade. -/
theorem add_route_duplicate_and_overwrite_witness :
    add_route [("/w", hOk)] "/w" hRaiseTE true = Except.error PyError.assertionError ∧
    dispatch_request (dictSet [("/w", hOk)] "/w" hRaiseTE) (mkReq "/w") =
      dispatchHandler hRaiseTE (mkReq "/w") initResp :=
  ⟨(add_route_duplicate_and_overwrite [("/w", hOk)] "/w" hOk hRaiseTE (mkReq "/w") rfl).1,
    (add_route_duplicate_and_overwrite [("/w", hOk)] "/w" hOk hRaiseTE (mkReq "/w")
      rfl).2.2.2 rfl (by decide)⟩

/-- C7 counterexample: at the registered empty path the overwriting
registration does replace the handler in the table, but the claimed
"every subsequent dispatch of that path invokes only the new handler"
fails — dispatching the empty path takes the default-404 branch and
invokes no handler at all (the trace holds only the defaultResp
event). -/
theorem overwrite_at_empty_path_not_dispatched :
    add_route [("", hOk)] "" hRaiseTE false = Except.ok [("", hRaiseTE)] ∧
    dispatch_request [("", hRaiseTE)] (mkReq "") =
      ([Ev.defaultResp], false,
        DispatchOut.resp { status_code := 404, text := "Not found.", media := none }) :=
  ⟨rfl, rfl⟩

/-- C8 (amended): url_for returns the FIRST registered route whose
stored handler is identical to the argument, so the round trip holds
for a handler registered at exactly one path (and in general for the
first path storing it), while a handler stored under no route makes
url_for raise (ValueError in the source, the spec's
ReverseLookupNotFoundError). -/
theorem url_for_round_trip (routes : List (String × Handler)) (h : Handler) :
    (registersView routes h = false →
      url_for routes h = Except.error PyError.valueError) ∧
    (∀ P v, (P, v) ∈ routes → v.hid = h.hid →
      (∀ P' v', (P', v') ∈ routes → v'.hid = h.hid → P' = P) →
      url_for routes h = Except.ok P) := by
  induction routes with
  | nil =>
    refine ⟨fun _ => rfl, ?_⟩
    intro P v hmem
    simp at hmem
  | cons rv rest ih =>
    obtain ⟨r, v0⟩ := rv
    constructor
    · intro hreg
      unfold registersView at hreg
      simp only [List.any_cons, Bool.or_eq_false_iff] at hreg
      obtain ⟨hhead, htail⟩ := hreg
      have hne : ¬v0.hid = h.hid := by simpa using hhead
      unfold url_for
      rw [if_neg hne]
      exact ih.1 htail
    · intro P v hmem hhid huniq
      rcases List.mem_cons.mp hmem with hhead | htail
      · have hP : P = r := congrArg Prod.fst hhead
        have hv : v = v0 := congrArg Prod.snd hhead
        unfold url_for
        rw [if_pos (by rw [← hv]; exact hhid), hP]
      · by_cases h0 : v0.hid = h.hid
        · have hre : r = P :=
            huniq r v0 (List.mem_cons_self (r, v0) rest) h0
          unfold url_for
          rw [if_pos h0, hre]
        · unfold url_for
          rw [if_neg h0]
          exact ih.2 P v htail hhid
            (fun P' v' hm hh => huniq P' v' (List.mem_cons_of_mem (r, v0) hm) hh)

/-- Witness for url_for_round_trip: a uniquely registered handler
round-trips, and an empty table raises. -/
theorem url_for_round_trip_witness :
    url_for [("a", hOk)] hOk = Except.ok "a" ∧
    url_for [] hOk = Except.error PyError.valueError :=
  ⟨(url_for_round_trip [("a", hOk)] hOk).2 "a" hOk (by simp) rfl
      (fun P' v' hm _ => by simp at hm; exact hm.1),
    (url_for_round_trip [] hOk).1 rfl⟩

/-- C8 counterexample: the same handler object registered at the two
paths "a" and "b" — it IS registered at "b", but url_for returns the
first match "a", so the claimed round trip fails at P = "b". -/
theorem url_for_first_match_counterexample :
    dictLookup [("a", hOk), ("b", hOk)] "b" = some hOk ∧
    url_for [("a", hOk), ("b", hOk)] hOk = Except.ok "a" ∧
    url_for [("a", hOk), ("b", hOk)] hOk ≠ Except.ok "b" := by
  refine ⟨rfl, rfl, ?_⟩
  intro hc
  have hc2 : (Except.ok "a" : Except PyError String) = Except.ok "b" := hc
  injection hc2 with hs
  exact absurd hs (by decide)

/-- Folding a sequence of mount calls over an apps table. -/
def mountAll (apps : List (String × AppRef)) (ms : List (String × AppRef)) :
    List (String × AppRef) :=
  ms.foldl (fun a m => mount a m.1 m.2) apps

/-- C9 (amended): for every sequence of mount calls whose prefixes all
differ from "/", the "/" entry still maps to the internal gateway
installed at construction.  The reservation is not enforced, though:
mount never checks its prefix, and a mount at "/" itself replaces the
root entry — see the counterexample. -/
theorem mount_preserves_root (ms : List (String × AppRef)) :
    (∀ m ∈ ms, m.1 ≠ "/") →
    dictLookup (mountAll initApps ms) "/" = some AppRef.gateway := by
  have gen : ∀ (l : List (String × AppRef)) (apps : List (String × AppRef)),
      dictLookup apps "/" = some AppRef.gateway → (∀ m ∈ l, m.1 ≠ "/") →
      dictLookup (mountAll apps l) "/" = some AppRef.gateway := by
    intro l
    induction l with
    | nil =>
      intro apps hroot _
      exact hroot
    | cons m rest ih =>
      intro apps hroot hall
      unfold mountAll
      simp only [List.foldl_cons]
      refine ih (mount apps m.1 m.2) ?_
        (fun x hx => hall x (List.mem_cons_of_mem m hx))
      unfold mount
      rw [dictLookup_dictSet_ne apps m.1 "/" m.2
        (Ne.symm (hall m (List.mem_cons_self m rest)))]
      exact hroot
  intro hall
  exact gen ms initApps rfl hall

/-- Witness for mount_preserves_root: two non-root mounts leave the
root gateway in place. -/
theorem mount_preserves_root_witness :
    dictLookup (mountAll initApps [("/static", AppRef.ext 1), ("/blog", AppRef.ext 2)])
      "/" = some AppRef.gateway :=
  mount_preserves_root [("/static", AppRef.ext 1), ("/blog", AppRef.ext 2)] (by decide)

/-- C9 counterexample: mount with prefix "/" is not rejected — it
replaces the root entry, so "/" no longer maps to the gateway
installed at construction. -/
theorem mount_root_overwrites_gateway :
    dictLookup (mount initApps "/" (AppRef.ext 0)) "/" = some (AppRef.ext 0) ∧
    some (AppRef.ext 0) ≠ some AppRef.gateway :=
  ⟨rfl, by decide⟩

/-- C10: the embedded client is memoized with the first call's
configuration only — the first session call builds and caches a
session whose adapter is mounted at that call's base_url; a second
call, with ANY base_url (equal to the first or not), returns the
identical cached object and leaves the cache unchanged. -/
theorem session_memoized (b1 b2 : String) :
    ((session none b1).1).baseUrl = b1 ∧
    session ((session none b1).2) b2 = ((session none b1).1, (session none b1).2) :=
  ⟨rfl, rfl⟩
